import Mathlib

/-!
Verification development for the opencode-graphiti memory core: the
Graphiti transport client (src/services/graphiti-client.ts), the typed
operation facade, and the project-namespace resolver.  The TypeScript
source is shallowly embedded: JavaScript dynamic values are modelled by
an inductive Json type, JS truthiness is modelled explicitly, the HTTP
layer is modelled by an oracle assigning an outcome (a thrown exception
or a response) to each fetch in order, and the mutable client fields
(sessionId, requestId) are threaded as explicit state.
-/

namespace Graphiti

/-- JSON (JavaScript runtime) values.  Absent fields / undefined are
modelled as Option.none at use sites.  Numbers are modelled as integers;
the embedded parser accepts integer numerals only (no claim depends on
fractional values). -/
inductive Json where
  | null : Json
  | bool (b : Bool) : Json
  | num (n : Int) : Json
  | str (s : String) : Json
  | arr (elems : List Json) : Json
  | obj (fields : List (String × Json)) : Json

/-- JS truthiness of a defined value: null, false, 0 and "" are falsy;
every object and array (even empty) is truthy. -/
def Json.truthyV : Json → Bool
  | .null => false
  | .bool b => b
  | .num n => n != 0
  | .str s => s != ""
  | .arr _ => true
  | .obj _ => true

/-- JS truthiness of a possibly-undefined value. -/
def truthyO (o : Option Json) : Bool :=
  match o with
  | none => false
  | some v => v.truthyV

/-- Property access v.k as JavaScript performs it on parsed JSON data:
a field lookup on objects, undefined (none) on everything else. -/
def Json.get : Json → String → Option Json
  | .obj fields, k => (fields.find? (fun p => p.1 == k)).map (·.2)
  | _, _ => none

/-- Indexing v[0] as used on the content array: the first element of an
array, undefined otherwise. -/
def Json.head0 : Json → Option Json
  | .arr (x :: _) => some x
  | _ => none

/-- Does the value satisfy the guard used for unwrapping structured
content: truthy, of typeof object, and having a result key
('structuredContent && typeof structuredContent === "object" &&
"result" in structuredContent')? -/
def Json.isObjWithResult : Json → Bool
  | .obj fields => fields.any (fun p => p.1 == "result")
  | _ => false

/-- JS truthiness of a string | null value (e.g. this.sessionId). -/
def strTruthy (o : Option String) : Bool :=
  match o with
  | none => false
  | some s => s != ""

/- ### Character-list string operations -/

/-- ASCII lowercasing of one character. -/
def lowerChar (c : Char) : Char :=
  if 65 ≤ c.toNat ∧ c.toNat ≤ 90 then Char.ofNat (c.toNat + 32) else c

def lowerList (l : List Char) : List Char := l.map lowerChar

/-- Does the pattern lead the list? -/
def leadsWith : List Char → List Char → Bool
  | [], _ => true
  | _ :: _, [] => false
  | p :: ps, c :: cs => p == c && leadsWith ps cs

/-- Split on a separator character, keeping empty segments, as the
JavaScript split does. -/
def splitOnChar (sep : Char) : List Char → List (List Char)
  | [] => [[]]
  | c :: rest =>
    let r := splitOnChar sep rest
    if c == sep then [] :: r
    else
      match r with
      | h :: t => (c :: h) :: t
      | [] => [[c]]

def isWs (c : Char) : Bool := c == ' ' || c == '\t' || c == '\n' || c == '\r'

/-- Whitespace trim at both ends (model of the JavaScript trim). -/
def trimChars (l : List Char) : List Char :=
  ((l.dropWhile isWs).reverse.dropWhile isWs).reverse

/- ### JSON parsing (model of JSON.parse) -/

def jsonWs (c : Char) : Bool :=
  c == ' ' || c == '\n' || c == '\t' || c == '\r'

def skipWs (l : List Char) : List Char := l.dropWhile jsonWs

def hexVal (c : Char) : Option Nat :=
  if '0' ≤ c ∧ c ≤ '9' then some (c.toNat - 48)
  else if 'a' ≤ c ∧ c ≤ 'f' then some (c.toNat - 87)
  else if 'A' ≤ c ∧ c ≤ 'F' then some (c.toNat - 55)
  else none

/-- Body of a JSON string literal, after the opening quote. -/
def parseStrBody : List Char → Option (List Char × List Char)
  | [] => none
  | '"' :: rest => some ([], rest)
  | '\\' :: 'u' :: a :: b :: c :: d :: rest =>
    match hexVal a, hexVal b, hexVal c, hexVal d with
    | some x, some y, some z, some w =>
      (parseStrBody rest).map (fun p =>
        (Char.ofNat (((x * 16 + y) * 16 + z) * 16 + w) :: p.1, p.2))
    | _, _, _, _ => none
  | '\\' :: e :: rest =>
    let dec : Option Char :=
      if e == '"' then some '"'
      else if e == '\\' then some '\\'
      else if e == '/' then some '/'
      else if e == 'b' then some (Char.ofNat 8)
      else if e == 'f' then some (Char.ofNat 12)
      else if e == 'n' then some '\n'
      else if e == 'r' then some (Char.ofNat 13)
      else if e == 't' then some '\t'
      else none
    match dec with
    | some ch => (parseStrBody rest).map (fun p => (ch :: p.1, p.2))
    | none => none
  | c :: rest => (parseStrBody rest).map (fun p => (c :: p.1, p.2))

def digitsToNat (ds : List Char) : Nat :=
  ds.foldl (fun acc c => acc * 10 + (c.toNat - 48)) 0

/-- Integer numeral.  Fractional and exponent forms are rejected by the
model (no claim exercises them). -/
def parseNum (l : List Char) : Option (Json × List Char) :=
  let (neg, l1) := match l with
    | '-' :: r => (true, r)
    | _ => (false, l)
  let ds := l1.takeWhile Char.isDigit
  let rest := l1.drop ds.length
  if ds.isEmpty then none
  else
    match rest with
    | '.' :: _ => none
    | 'e' :: _ => none
    | 'E' :: _ => none
    | _ =>
      let v : Int := Int.ofNat (digitsToNat ds)
      some (.num (if neg then -v else v), rest)

mutual

/-- Fueled recursive-descent JSON value. -/
def parseVal : Nat → List Char → Option (Json × List Char)
  | 0, _ => none
  | fuel + 1, l =>
    match skipWs l with
    | 'n' :: 'u' :: 'l' :: 'l' :: r => some (.null, r)
    | 't' :: 'r' :: 'u' :: 'e' :: r => some (.bool true, r)
    | 'f' :: 'a' :: 'l' :: 's' :: 'e' :: r => some (.bool false, r)
    | '"' :: r => (parseStrBody r).map (fun p => (.str (String.mk p.1), p.2))
    | '[' :: r =>
      (match skipWs r with
      | ']' :: r2 => some (.arr [], r2)
      | r2 => (parseElems fuel r2).map (fun p => (.arr p.1, p.2)))
    | '{' :: r =>
      (match skipWs r with
      | '}' :: r2 => some (.obj [], r2)
      | r2 => (parseMembers fuel r2).map (fun p => (.obj p.1, p.2)))
    | l2 => parseNum l2

/-- Comma-separated array elements, terminated by a closing bracket. -/
def parseElems : Nat → List Char → Option (List Json × List Char)
  | 0, _ => none
  | fuel + 1, l =>
    match parseVal fuel l with
    | none => none
    | some (v, rest) =>
      match skipWs rest with
      | ']' :: r2 => some ([v], r2)
      | ',' :: r2 =>
        (parseElems fuel r2).map (fun p => (v :: p.1, p.2))
      | _ => none

/-- Comma-separated object members, terminated by a closing brace. -/
def parseMembers : Nat → List Char → Option (List (String × Json) × List Char)
  | 0, _ => none
  | fuel + 1, l =>
    match skipWs l with
    | '"' :: r =>
      match parseStrBody r with
      | none => none
      | some (key, r2) =>
        match skipWs r2 with
        | ':' :: r3 =>
          match parseVal fuel r3 with
          | none => none
          | some (v, r4) =>
            match skipWs r4 with
            | '}' :: r5 => some ([(String.mk key, v)], r5)
            | ',' :: r5 =>
              (parseMembers fuel r5).map (fun p => ((String.mk key, v) :: p.1, p.2))
            | _ => none
        | _ => none
    | _ => none

end

/-- Model of JSON.parse: none models a thrown SyntaxError. -/
def Json.parse (s : String) : Option Json :=
  match parseVal (s.length + 1) s.data with
  | some (v, rest) => if (skipWs rest).isEmpty then some v else none
  | none => none

/- ### Transport client (GraphitiClient) -/

/-- What one fetchWithTimeout call does.  throw covers both a rejected
fetch (network error) and the timeout rejection ("Request timeout");
reply carries the HTTP status, response headers and body text. -/
inductive FetchOutcome where
  | throw (msg : String) : FetchOutcome
  | reply (status : Nat) (headers : List (String × String)) (body : String) : FetchOutcome

/-- Response.ok: status in the inclusive range 200-299. -/
def httpOk (status : Nat) : Bool := 200 ≤ status && status ≤ 299

/-- Headers.get: case-insensitive lookup of the first matching header. -/
def headerGet (hs : List (String × String)) (k : String) : Option String :=
  (hs.find? (fun p => lowerList p.1.data == lowerList k.data)).map (·.2)

/-- The private mutable fields of one GraphitiClient instance. -/
structure ClientState where
  sessionId : Option String
  requestId : Nat

/-- A client state plus the position of the next fetch in the oracle. -/
structure Conf where
  st : ClientState
  pos : Nat

/-- One outbound request as assembled by sendRequest: the headers sent,
the envelope id, the JSON-RPC method and the optional params object. -/
structure SentRequest where
  headers : List (String × String)
  id : Nat
  method : String
  params : Option Json

/-- The 6-character line marker "data: ". -/
def dataMarker : List Char := ['d', 'a', 't', 'a', ':', ' ']

/-- parseSSEResponse, up to the data-line extraction: split the body on
newlines, find the first line starting with "data: ", strip the 6-char
marker.  none models the thrown "Invalid SSE format: no data line". -/
def findDataLine (body : String) : Option String :=
  ((splitOnChar '\n' body.data).find? (fun line => leadsWith dataMarker line)).map
    (fun l => String.mk (l.drop 6))

def baseHeaders : List (String × String) :=
  [("Content-Type", "application/json"),
   ("Accept", "application/json, text/event-stream")]

/-- sendRequest.  Returns the configuration after the call (requestId is
pre-incremented before the fetch; a session header, when present on the
handshake reply of an uninitialized client, is captured after parsing),
the request that was sent, and either the parsed JSON-RPC envelope or a
thrown error message. -/
def sendRequestM (w : Nat → FetchOutcome) (c : Conf) (method : String)
    (params : Option Json) : Conf × SentRequest × Except String Json :=
  let hs := baseHeaders ++
    (match c.st.sessionId with
     | some s => if s != "" then [("mcp-session-id", s)] else []
     | none => [])
  let rid := c.st.requestId + 1
  let req : SentRequest := ⟨hs, rid, method, params⟩
  let st1 : ClientState := ⟨c.st.sessionId, rid⟩
  match w c.pos with
  | .throw msg => (⟨st1, c.pos + 1⟩, req, .error msg)
  | .reply status headers body =>
    if httpOk status then
      match findDataLine body with
      | none => (⟨st1, c.pos + 1⟩, req, .error "Invalid SSE format: no data line")
      | some jsonText =>
        match Json.parse jsonText with
        | none => (⟨st1, c.pos + 1⟩, req, .error "Unexpected token in JSON")
        | some resp =>
          let newSession : Option String :=
            if method == "initialize" && !(strTruthy st1.sessionId) then
              match headerGet headers "mcp-session-id" with
              | some tok => if tok != "" then some tok else st1.sessionId
              | none => st1.sessionId
            else st1.sessionId
          (⟨⟨newSession, rid⟩, c.pos + 1⟩, req, .ok resp)
    else (⟨st1, c.pos + 1⟩, req, .error ("HTTP error: " ++ toString status))

/-- Result type GraphitiResult: success with a (possibly undefined)
payload, or failure with a message and the connectivity flag.  The
message is kept as a Json value because the dynamic code can propagate
non-string error fields; none models undefined. -/
inductive GResult where
  | ok (data : Option Json) : GResult
  | fail (error : Option Json) (isUnreachable : Bool) : GResult

def initParams : Json :=
  .obj [("protocolVersion", .str "2024-11-05"),
        ("capabilities", .obj []),
        ("clientInfo", .obj [("name", .str "opencode-graphiti-memory"),
                             ("version", .str "1.0.0")])]

/-- Classification of a parsed handshake envelope: a truthy error
object is a connectivity failure, anything else is success. -/
def classifyInit (resp : Json) : GResult :=
  if truthyO (resp.get "error") then
    .fail ((resp.get "error").bind (fun e => e.get "message")) true
  else .ok none

/-- ensureSession: a no-op when a (truthy) session token is held,
otherwise one handshake request; its own try/catch converts any thrown
error into a connectivity failure. -/
def ensureSessionM (w : Nat → FetchOutcome) (c : Conf) :
    Conf × List SentRequest × GResult :=
  if strTruthy c.st.sessionId then (c, [], .ok none)
  else
    let r := sendRequestM w c "initialize" (some initParams)
    (r.1, [r.2.1],
     match r.2.2 with
     | .error msg => .fail (some (.str msg)) true
     | .ok resp => classifyInit resp)

def toolParams (name : String) (args : Json) : Json :=
  .obj [("name", .str name), ("arguments", args)]

/-- The error-message extraction of the isError branch of callTool. -/
def toolErrorMessage (result : Json) : Json :=
  let errorContent := ((result.get "structuredContent").bind (fun sc => sc.get "error"))
  let textContent := (((result.get "content").bind Json.head0).bind (fun b => b.get "text"))
  if truthyO errorContent then errorContent.getD .null
  else
    match textContent with
    | some (.str s) =>
      if s != "" then
        match Json.parse s with
        | some parsed =>
          if truthyO (parsed.get "error") then (parsed.get "error").getD .null
          else .str s
        | none => .str s
      else .str "Tool execution failed"
    | some v => if v.truthyV then v else .str "Tool execution failed"
    | none => .str "Tool execution failed"

/-- The payload extraction of the success branch of callTool: unwrap a
structured content that is an object carrying a result key. -/
def unwrapPayload (result : Json) : Option Json :=
  match result.get "structuredContent" with
  | some sc => if sc.isObjWithResult then sc.get "result" else some sc
  | none => none

/-- Classification of a parsed tools/call envelope, in the order the
code checks it: a truthy envelope-level error object, then a falsy (or
absent) result, then the tool-level isError flag, then success. -/
def classifyResp (resp : Json) : GResult :=
  if truthyO (resp.get "error") then
    .fail ((resp.get "error").bind (fun e => e.get "message")) true
  else
    match resp.get "result" with
    | none => .fail (some (.str "No result in response")) true
    | some result =>
      if !result.truthyV then
        .fail (some (.str "No result in response")) true
      else if truthyO (result.get "isError") then
        .fail (some (toolErrorMessage result)) false
      else
        .ok (unwrapPayload result)

/-- callTool: ensure a session, send the tools/call request, classify
the response.  The surrounding try/catch converts every thrown error
into a failure with isUnreachable true. -/
def callToolM (w : Nat → FetchOutcome) (c : Conf) (name : String) (args : Json) :
    Conf × List SentRequest × GResult :=
  let s := ensureSessionM w c
  match s.2.2 with
  | .fail e u => (s.1, s.2.1, .fail e u)
  | .ok _ =>
    let r := sendRequestM w s.1 "tools/call" (some (toolParams name args))
    (r.1, s.2.1 ++ [r.2.1],
     match r.2.2 with
     | .error msg => .fail (some (.str msg)) true
     | .ok resp => classifyResp resp)

/-- A sequence of callTool invocations issued sequentially on one
client instance. -/
def runCalls (w : Nat → FetchOutcome) : Conf → List (String × Json) →
    Conf × List SentRequest × List GResult
  | c, [] => (c, [], [])
  | c, (n, a) :: rest =>
    let r1 := callToolM w c n a
    let r2 := runCalls w r1.1 rest
    (r2.1, r1.2.1 ++ r2.2.1, r1.2.2 :: r2.2.2)

/- ### SHA-256 (model of createHash("sha256") ... digest("hex")) -/

def w32 : Nat := 4294967296

def rotr32 (x k : Nat) : Nat := ((x >>> k) ||| (x <<< (32 - k))) % w32

def bsig0 (x : Nat) : Nat := (rotr32 x 2) ^^^ (rotr32 x 13) ^^^ (rotr32 x 22)
def bsig1 (x : Nat) : Nat := (rotr32 x 6) ^^^ (rotr32 x 11) ^^^ (rotr32 x 25)
def ssig0 (x : Nat) : Nat := (rotr32 x 7) ^^^ (rotr32 x 18) ^^^ (x >>> 3)
def ssig1 (x : Nat) : Nat := (rotr32 x 17) ^^^ (rotr32 x 19) ^^^ (x >>> 10)

def chF (e f g : Nat) : Nat := (e &&& f) ^^^ ((e ^^^ 4294967295) &&& g)
def majF (a b c : Nat) : Nat := (a &&& b) ^^^ (a &&& c) ^^^ (b &&& c)

def k256 : List Nat :=
  [1116352408, 1899447441, 3049323471, 3921009573, 961987163, 1508970993,
   2453635748, 2870763221, 3624381080, 310598401, 607225278, 1426881987,
   1925078388, 2162078206, 2614888103, 3248222580, 3835390401, 4022224774,
   264347078, 604807628, 770255983, 1249150122, 1555081692, 1996064986,
   2554220882, 2821834349, 2952996808, 3210313671, 3336571891, 3584528711,
   113926993, 338241895, 666307205, 773529912, 1294757372, 1396182291,
   1695183700, 1986661051, 2177026350, 2456956037, 2730485921, 2820302411,
   3259730800, 3345764771, 3516065817, 3600352804, 4094571909, 275423344,
   430227734, 506948616, 659060556, 883997877, 958139571, 1322822218,
   1537002063, 1747873779, 1955562222, 2024104815, 2227730452, 2361852424,
   2428436474, 2756734187, 3204031479, 3329325298]

/-- The eight 32-bit state words. -/
structure H8 where
  a : Nat
  b : Nat
  c : Nat
  d : Nat
  e : Nat
  f : Nat
  g : Nat
  h : Nat

def initH : H8 :=
  ⟨1779033703, 3144134277, 1013904242, 2773480762,
   1359893119, 2600822924, 528734635, 1541459225⟩

/-- UTF-8 encoding of one character. -/
def utf8Char (c : Char) : List Nat :=
  let n := c.toNat
  if n < 128 then [n]
  else if n < 2048 then [192 + n / 64, 128 + n % 64]
  else if n < 65536 then [224 + n / 4096, 128 + (n / 64) % 64, 128 + n % 64]
  else [240 + n / 262144, 128 + (n / 4096) % 64, 128 + (n / 64) % 64, 128 + n % 64]

def utf8Bytes (s : String) : List Nat := (s.data.map utf8Char).flatten

/-- SHA-256 message padding: a 0x80 byte, zeros to 56 mod 64, and the
bit length as eight big-endian bytes. -/
def padMsg (msg : List Nat) : List Nat :=
  let len := msg.length
  let zeros := (119 - len % 64) % 64
  msg ++ [128] ++ List.replicate zeros 0 ++
    (List.range 8).map (fun i => ((len * 8) >>> (8 * (7 - i))) % 256)

/-- Big-endian 32-bit words from bytes. -/
def toWords : List Nat → List Nat
  | b0 :: b1 :: b2 :: b3 :: rest => (((b0 * 256 + b1) * 256 + b2) * 256 + b3) :: toWords rest
  | _ => []

/-- 64-byte blocks, with fuel for structural recursion. -/
def blocks64F : Nat → List Nat → List (List Nat)
  | 0, _ => []
  | _, [] => []
  | fuel + 1, x :: xs => ((x :: xs).take 64) :: blocks64F fuel ((x :: xs).drop 64)

/-- 64-byte blocks. -/
def blocks64 (l : List Nat) : List (List Nat) := blocks64F l.length l

/-- Extend 16 words to the 64-word message schedule. -/
def schedule (w16 : List Nat) : List Nat :=
  (List.range 48).foldl
    (fun w _ =>
      let n := w.length
      w ++ [(ssig1 (w.getD (n - 2) 0) + w.getD (n - 7) 0 +
             ssig0 (w.getD (n - 15) 0) + w.getD (n - 16) 0) % w32])
    w16

def compressBlock (H : H8) (blockBytes : List Nat) : H8 :=
  let w := schedule (toWords blockBytes)
  let s := (List.range 64).foldl
    (fun (s : H8) i =>
      let t1 := (s.h + bsig1 s.e + chF s.e s.f s.g + k256.getD i 0 + w.getD i 0) % w32
      let t2 := (bsig0 s.a + majF s.a s.b s.c) % w32
      ⟨(t1 + t2) % w32, s.a, s.b, s.c, (s.d + t1) % w32, s.e, s.f, s.g⟩)
    H
  ⟨(H.a + s.a) % w32, (H.b + s.b) % w32, (H.c + s.c) % w32, (H.d + s.d) % w32,
   (H.e + s.e) % w32, (H.f + s.f) % w32, (H.g + s.g) % w32, (H.h + s.h) % w32⟩

def sha256Words (msg : List Nat) : H8 :=
  (blocks64 (padMsg msg)).foldl compressBlock initH

def hexDigit (n : Nat) : Char :=
  if n < 10 then Char.ofNat (48 + n) else Char.ofNat (87 + n)

def toHex8 (n : Nat) : List Char :=
  (List.range 8).map (fun i => hexDigit ((n >>> (4 * (7 - i))) % 16))

/-- The characters of the hex digest. -/
def sha256hexChars (s : String) : List Char :=
  let H := sha256Words (utf8Bytes s)
  toHex8 H.a ++ toHex8 H.b ++ toHex8 H.c ++ toHex8 H.d ++
  toHex8 H.e ++ toHex8 H.f ++ toHex8 H.g ++ toHex8 H.h

/-- Model of createHash("sha256").update(s).digest("hex"). -/
def sha256hex (s : String) : String := String.mk (sha256hexChars s)

/- ### Namespace resolver (src/services/namespace.ts, git-based) -/

/-- The external git lookups for one directory: the raw stdout of
"git remote get-url origin" (none when the command fails) and the raw
stdout of "git rev-parse --show-prefix" (none when it fails). -/
structure GitEnv where
  remoteRaw : Option String
  showPrefixRaw : Option String

/-- getGitRemoteUrl: trimmed stdout, or null on failure. -/
def getGitRemoteUrl (env : GitEnv) : Option String :=
  env.remoteRaw.map (fun raw => String.mk (trimChars raw.data))

def dropTrailingSlashesL (l : List Char) : List Char :=
  (l.reverse.dropWhile (fun c => c == '/')).reverse

/-- getRelativePathFromGitRoot: trim, turn backslashes into slashes,
drop trailing slashes; empty on failure. -/
def getRelativePathFromGitRoot (env : GitEnv) : String :=
  match env.showPrefixRaw with
  | none => ""
  | some raw =>
    String.mk (dropTrailingSlashesL
      ((trimChars raw.data).map (fun c => if c == '\\' then '/' else c)))

/-- Strip one leading http://, https:// or ssh:// scheme,
case-insensitively. -/
def dropScheme (l : List Char) : List Char :=
  if leadsWith "https://".data (lowerList l) then l.drop 8
  else if leadsWith "http://".data (lowerList l) then l.drop 7
  else if leadsWith "ssh://".data (lowerList l) then l.drop 6
  else l

/-- Strip a leading user@ part: a nonempty run of characters other than
@ and / followed by @. -/
def dropUserAt (l : List Char) : List Char :=
  let u := l.takeWhile (fun c => c != '@' && c != '/')
  if u.isEmpty then l
  else
    match l.drop u.length with
    | '@' :: rest => rest
    | _ => l

/-- Does some nonempty slash-free run end at a colon that is followed by
a character other than a slash?  The scan argument records whether at
least one character precedes the current position. -/
def hasColonPath : List Char → Bool → Bool
  | [], _ => false
  | c :: rest, pre =>
    if c == '/' then false
    else
      (c == ':' && pre &&
        (match rest with
         | r :: _ => r != '/'
         | [] => false)) ||
      hasColonPath rest true

def digitsThenSlashOrEnd (l : List Char) : Bool :=
  let ds := l.takeWhile Char.isDigit
  !ds.isEmpty &&
    (match l.drop ds.length with
     | [] => true
     | '/' :: _ => true
     | _ => false)

/-- Does some nonempty slash-free run end at a colon followed by digits
and then a slash or the end (a host:port form)? -/
def hasColonPort : List Char → Bool → Bool
  | [], _ => false
  | c :: rest, pre =>
    if c == '/' then false
    else
      (c == ':' && pre && digitsThenSlashOrEnd rest) ||
      hasColonPort rest true

def replaceFirstColon : List Char → List Char
  | [] => []
  | ':' :: rest => '/' :: rest
  | c :: rest => c :: replaceFirstColon rest

/-- Strip one trailing .git, case-insensitively. -/
def dropDotGit (l : List Char) : List Char :=
  if leadsWith ".git".data.reverse (lowerList l).reverse then l.take (l.length - 4) else l

/-- normalizeGitRemoteUrl: trim, strip scheme, strip user@, turn a
host:path shorthand (but not host:port) into host/path, strip a
trailing .git, strip trailing slashes, lowercase. -/
def normalizeGitRemoteUrl (url : String) : String :=
  let l := trimChars url.data
  let l := dropScheme l
  let l := dropUserAt l
  let l := if hasColonPath l false && !hasColonPort l false
           then replaceFirstColon l else l
  let l := dropDotGit l
  let l := dropTrailingSlashesL l
  String.mk (lowerList l)

/-- The hashInput computed by getProjectHash: the normalized remote
joined with the repo-relative path when a truthy remote exists, else
the raw directory path. -/
def canonicalIdentity (env : GitEnv) (dirPath : String) : String :=
  match getGitRemoteUrl env with
  | some remoteUrl =>
    if remoteUrl != "" then
      let normalizedUrl := normalizeGitRemoteUrl remoteUrl
      let relativePath := getRelativePathFromGitRoot env
      if relativePath != "" then normalizedUrl ++ "/" ++ relativePath else normalizedUrl
    else dirPath
  | none => dirPath

/-- The process-wide _hashCache, as an association list where the most
recent insertion shadows older ones. -/
def cacheGet (cache : List (String × String)) (k : String) : Option String :=
  (cache.find? (fun p => p.1 == k)).map (·.2)

/-- getProjectHash: serve a truthy cached fingerprint, otherwise run the
git lookups, hash the canonical identity, keep the first 8 hex chars and
cache them.  The third component counts the git subprocess invocations
performed by the call. -/
def getProjectHash (env : GitEnv) (cache : List (String × String)) (dirPath : String) :
    List (String × String) × String × Nat :=
  match cacheGet cache dirPath with
  | some cached =>
    if cached != "" then (cache, cached, 0)
    else getProjectHashCompute env cache dirPath
  | none => getProjectHashCompute env cache dirPath
where
  getProjectHashCompute (env : GitEnv) (cache : List (String × String)) (dirPath : String) :
      List (String × String) × String × Nat :=
    let remoteTruthy := match getGitRemoteUrl env with
      | some r => r != ""
      | none => false
    let gitCalls := 1 + (if remoteTruthy then 1 else 0)
    let hash := String.mk ((sha256hexChars (canonicalIdentity env dirPath)).take 8)
    ((dirPath, hash) :: cache, hash, gitCalls)

/-- getProjectNamespace: the configured base group id, an underscore and
the directory fingerprint. -/
def getProjectNamespace (groupId : String) (env : GitEnv) (cache : List (String × String))
    (dirPath : String) : List (String × String) × String × Nat :=
  let r := getProjectHash env cache dirPath
  (r.1, groupId ++ "_" ++ r.2.1, r.2.2)

/- ### Typed operation facade: argument maps -/

structure AddMemoryParams where
  name : String
  episodeBody : String
  groupId : Option String
  source : Option String
  sourceDescription : Option String
  uuid : Option String

structure SearchNodesParams where
  groupIds : Option (List String)
  maxNodes : Option Int
  entityTypes : Option (List String)

structure SearchFactsParams where
  groupIds : Option (List String)
  maxFacts : Option Int
  centerNodeUuid : Option String

structure GetEpisodesParams where
  groupIds : Option (List String)
  maxEpisodes : Option Int

structure ClearGraphParams where
  groupIds : Option (List String)

/-- An optional string argument: included when supplied and truthy. -/
def optStr (k : String) (v : Option String) : List (String × Json) :=
  match v with
  | some s => if s != "" then [(k, .str s)] else []
  | none => []

/-- An optional numeric argument: included when supplied and truthy. -/
def optNum (k : String) (v : Option Int) : List (String × Json) :=
  match v with
  | some n => if n != 0 then [(k, .num n)] else []
  | none => []

/-- An optional string-array argument: included whenever supplied
(arrays are always truthy). -/
def optArr (k : String) (v : Option (List String)) : List (String × Json) :=
  match v with
  | some l => [(k, .arr (l.map Json.str))]
  | none => []

def addMemoryArgs (p : AddMemoryParams) : List (String × Json) :=
  [("name", .str p.name), ("episode_body", .str p.episodeBody)] ++
  optStr "group_id" p.groupId ++
  optStr "source" p.source ++
  optStr "source_description" p.sourceDescription ++
  optStr "uuid" p.uuid

def searchNodesArgs (query : String) (p : SearchNodesParams) : List (String × Json) :=
  [("query", .str query)] ++
  optArr "group_ids" p.groupIds ++
  optNum "max_nodes" p.maxNodes ++
  optArr "entity_types" p.entityTypes

def searchFactsArgs (query : String) (p : SearchFactsParams) : List (String × Json) :=
  [("query", .str query)] ++
  optArr "group_ids" p.groupIds ++
  optNum "max_facts" p.maxFacts ++
  optStr "center_node_uuid" p.centerNodeUuid

def getEpisodesArgs (p : GetEpisodesParams) : List (String × Json) :=
  optArr "group_ids" p.groupIds ++
  optNum "max_episodes" p.maxEpisodes

def deleteEpisodeArgs (uuid : String) : List (String × Json) :=
  [("uuid", .str uuid)]

def clearGraphArgs (p : ClearGraphParams) : List (String × Json) :=
  optArr "group_ids" p.groupIds

/-- Lookup in an argument map, as the server sees the JSON object. -/
def argsGet (l : List (String × Json)) (k : String) : Option Json :=
  (l.find? (fun p => p.1 == k)).map (·.2)

/- ### Failure-classification vocabulary -/

/-- The JSON-RPC envelope obtained from one fetch outcome, when the
exchange produces one: an HTTP success whose body has a data line whose
payload parses as JSON. -/
def goodEnvelope : FetchOutcome → Option Json
  | .throw _ => none
  | .reply status _ body =>
    if httpOk status then (findDataLine body).bind Json.parse else none

/-- The outcome throws somewhere before an envelope is obtained: a
network exception or timeout rejection, a non-success HTTP status, a
missing SSE data line, or an unparsable payload.  These are exactly the
exception sources of one request/response cycle. -/
def badOutcome : FetchOutcome → Bool
  | .throw _ => true
  | .reply status _ body =>
    !httpOk status || (findDataLine body).isNone ||
      ((findDataLine body).bind Json.parse).isNone

/-- The outcome is an envelope carrying a truthy envelope-level error
object. -/
def envelopeError (o : FetchOutcome) : Bool :=
  truthyO ((goodEnvelope o).bind (fun env => env.get "error"))

/-- The outcome is a handshake the client counts as successful: an
envelope was obtained and it has no truthy error object. -/
def handshakeOK (o : FetchOutcome) : Bool :=
  (goodEnvelope o).isSome && !envelopeError o

/-- The outcome is a well-formed tool-level rejection: an envelope with
no truthy error object, a truthy result object, and a truthy isError
flag on it. -/
def toolLevelError (o : FetchOutcome) : Bool :=
  match goodEnvelope o with
  | some env =>
    !truthyO (env.get "error") &&
    truthyO (env.get "result") &&
    truthyO ((env.get "result").bind (fun r => r.get "isError"))
  | none => false

/-- Running callTool from this configuration reaches the tool-level
error branch: either a session is already held and the tools/call
outcome is a tool-level rejection, or the handshake at the current
position succeeds and the following tools/call outcome is one. -/
def reachesToolError (w : Nat → FetchOutcome) (c : Conf) : Bool :=
  if strTruthy c.st.sessionId then toolLevelError (w c.pos)
  else handshakeOK (w c.pos) && toolLevelError (w (c.pos + 1))

/- ### Concrete exchanges used to instantiate the general theorems -/

def hsOkHeaders : List (String × String) := [("mcp-session-id", "sess-1")]

def hsOkBody : String :=
  "data: \x7b\"jsonrpc\":\"2.0\",\"id\":1,\"result\":\x7b\"protocolVersion\":\"2024-11-05\"\x7d\x7d"

def hsErrBody : String :=
  "data: \x7b\"jsonrpc\":\"2.0\",\"id\":1,\"error\":\x7b\"code\":-32600,\"message\":\"Bad Request\"\x7d\x7d"

def toolOkBody : String :=
  "data: \x7b\"jsonrpc\":\"2.0\",\"id\":2,\"result\":\x7b\"isError\":false,\"structuredContent\":\x7b\"status\":\"ok\"\x7d\x7d\x7d"

/-- Tool rejection whose structured content has an empty-string error
field and whose content array is empty. -/
def emptyErrBody : String :=
  "data: \x7b\"jsonrpc\":\"2.0\",\"id\":2,\"result\":\x7b\"isError\":true,\"structuredContent\":\x7b\"error\":\"\"\x7d,\"content\":[]\x7d\x7d"

/-- Tool rejection whose structured content carries the error "boom". -/
def boomErrBody : String :=
  "data: \x7b\"jsonrpc\":\"2.0\",\"id\":2,\"result\":\x7b\"isError\":true,\"structuredContent\":\x7b\"error\":\"boom\"\x7d\x7d\x7d"

/-- Success whose structured content has a result key next to another
key. -/
def doubleKeyBody : String :=
  "data: \x7b\"jsonrpc\":\"2.0\",\"id\":2,\"result\":\x7b\"isError\":false,\"structuredContent\":\x7b\"result\":1,\"extra\":2\x7d\x7d\x7d"

/-- Success whose structured content is an object with a single result
key. -/
def singleKeyBody : String :=
  "data: \x7b\"jsonrpc\":\"2.0\",\"id\":2,\"result\":\x7b\"isError\":false,\"structuredContent\":\x7b\"result\":\x7b\"nodes\":[]\x7d\x7d\x7d\x7d"

/-- A session-holding configuration. -/
def confS : Conf := ⟨⟨some "sess-1", 0⟩, 0⟩

/-- A fresh configuration. -/
def conf0 : Conf := ⟨⟨none, 0⟩, 0⟩

def wEmptyErr : Nat → FetchOutcome := fun _ => .reply 200 [] emptyErrBody

def wBoomErr : Nat → FetchOutcome := fun _ => .reply 200 [] boomErrBody

def wNoData : Nat → FetchOutcome := fun _ => .reply 200 [] "hello"

def wThrow : Nat → FetchOutcome := fun _ => .throw "ECONNREFUSED"

def wDoubleKey : Nat → FetchOutcome := fun _ => .reply 200 [] doubleKeyBody

def wSingleKey : Nat → FetchOutcome := fun _ => .reply 200 [] singleKeyBody

/-- Handshake then two successful tool calls. -/
def wSession : Nat → FetchOutcome
  | 0 => .reply 200 hsOkHeaders hsOkBody
  | _ => .reply 200 [] toolOkBody

/-- Handshake whose HTTP reply carries a session header but whose
envelope is an error. -/
def wHsErr : Nat → FetchOutcome
  | 0 => .reply 200 hsOkHeaders hsErrBody
  | _ => .reply 200 [] toolOkBody

/-- A successful handshake followed by a network failure. -/
def wHsThenBad : Nat → FetchOutcome
  | 0 => .reply 200 hsOkHeaders hsOkBody
  | _ => .throw "ECONNRESET"

/-- The headers sent once a session token is held. -/
def sessHeaders (tok : String) : List (String × String) :=
  baseHeaders ++ [("mcp-session-id", tok)]

/-- Git lookups for a directory inside a clone with an SSH-shorthand
origin remote and repo-relative path pkg/app. -/
def envSsh : GitEnv := ⟨some "git@host:org/repo.git\n", some "pkg/app\n"⟩

/-- The same repository accessed through an HTTPS remote. -/
def envHttps : GitEnv := ⟨some "https://host/org/repo.git\n", some "pkg/app\n"⟩

/- ### Lemmas about one sendRequest cycle -/

theorem sendRequest_pos (w : Nat → FetchOutcome) (c : Conf) (m : String) (p : Option Json) :
    (sendRequestM w c m p).1.pos = c.pos + 1 := by
  cases hw : w c.pos with
  | throw msg => simp [sendRequestM, hw]
  | reply status hs body =>
    by_cases hok : httpOk status
    · cases hf : findDataLine body with
      | none => simp [sendRequestM, hw, hok, hf]
      | some jt =>
        cases hp : Json.parse jt with
        | none => simp [sendRequestM, hw, hok, hf, hp]
        | some env => simp [sendRequestM, hw, hok, hf, hp]
    · simp [sendRequestM, hw, hok]

theorem sendRequest_rid (w : Nat → FetchOutcome) (c : Conf) (m : String) (p : Option Json) :
    (sendRequestM w c m p).1.st.requestId = c.st.requestId + 1 := by
  cases hw : w c.pos with
  | throw msg => simp [sendRequestM, hw]
  | reply status hs body =>
    by_cases hok : httpOk status
    · cases hf : findDataLine body with
      | none => simp [sendRequestM, hw, hok, hf]
      | some jt =>
        cases hp : Json.parse jt with
        | none => simp [sendRequestM, hw, hok, hf, hp]
        | some env => simp [sendRequestM, hw, hok, hf, hp]
    · simp [sendRequestM, hw, hok]

theorem sendRequest_req (w : Nat → FetchOutcome) (c : Conf) (m : String) (p : Option Json) :
    (sendRequestM w c m p).2.1 =
      ⟨baseHeaders ++ (match c.st.sessionId with
        | some s => if s != "" then [("mcp-session-id", s)] else []
        | none => []), c.st.requestId + 1, m, p⟩ := by
  cases hw : w c.pos with
  | throw msg => simp [sendRequestM, hw]
  | reply status hs body =>
    by_cases hok : httpOk status
    · cases hf : findDataLine body with
      | none => simp [sendRequestM, hw, hok, hf]
      | some jt =>
        cases hp : Json.parse jt with
        | none => simp [sendRequestM, hw, hok, hf, hp]
        | some env => simp [sendRequestM, hw, hok, hf, hp]
    · simp [sendRequestM, hw, hok]

theorem sendRequest_req_session (w : Nat → FetchOutcome) (c : Conf) (m : String)
    (p : Option Json) (tok : String) (hsess : c.st.sessionId = some tok) (ht : tok ≠ "") :
    (sendRequestM w c m p).2.1 = ⟨sessHeaders tok, c.st.requestId + 1, m, p⟩ := by
  rw [sendRequest_req, hsess, sessHeaders]
  simp [bne_iff_ne, ht]

theorem sendRequest_session_preserved (w : Nat → FetchOutcome) (c : Conf) (m : String)
    (p : Option Json) (hsess : strTruthy c.st.sessionId = true) :
    (sendRequestM w c m p).1.st.sessionId = c.st.sessionId := by
  cases hw : w c.pos with
  | throw msg => simp [sendRequestM, hw]
  | reply status hs body =>
    by_cases hok : httpOk status
    · cases hf : findDataLine body with
      | none => simp [sendRequestM, hw, hok, hf]
      | some jt =>
        cases hp : Json.parse jt with
        | none => simp [sendRequestM, hw, hok, hf, hp]
        | some env => simp [sendRequestM, hw, hok, hf, hp, hsess]
    · simp [sendRequestM, hw, hok]

theorem sendRequest_ok_iff (w : Nat → FetchOutcome) (c : Conf) (m : String) (p : Option Json)
    (env : Json) :
    (sendRequestM w c m p).2.2 = .ok env ↔ goodEnvelope (w c.pos) = some env := by
  cases hw : w c.pos with
  | throw msg => simp [sendRequestM, goodEnvelope, hw]
  | reply status hs body =>
    by_cases hok : httpOk status
    · cases hf : findDataLine body with
      | none => simp [sendRequestM, goodEnvelope, hw, hok, hf]
      | some jt =>
        cases hp : Json.parse jt with
        | none => simp [sendRequestM, goodEnvelope, hw, hok, hf, hp]
        | some env2 => simp [sendRequestM, goodEnvelope, hw, hok, hf, hp]
    · simp [sendRequestM, goodEnvelope, hw, hok]

theorem sendRequest_error_iff (w : Nat → FetchOutcome) (c : Conf) (m : String)
    (p : Option Json) :
    (∃ msg, (sendRequestM w c m p).2.2 = .error msg) ↔ goodEnvelope (w c.pos) = none := by
  cases hr : (sendRequestM w c m p).2.2 with
  | error msg =>
    cases hg : goodEnvelope (w c.pos) with
    | none => exact ⟨fun _ => rfl, fun _ => ⟨msg, rfl⟩⟩
    | some env =>
      exfalso
      have h2 := (sendRequest_ok_iff w c m p env).mpr hg
      rw [hr] at h2
      exact Except.noConfusion h2
  | ok env =>
    have hg := (sendRequest_ok_iff w c m p env).mp hr
    constructor
    · rintro ⟨msg, hmsg⟩
      exact Except.noConfusion hmsg
    · intro hn
      rw [hg] at hn
      exact Option.noConfusion hn

/-- A handshake on an uninitialized client whose reply is an HTTP
success carrying a truthy session header and a parsable body: the token
is captured and the envelope returned. -/
theorem sendRequest_capture (w : Nat → FetchOutcome) (c : Conf) (p : Option Json)
    (status : Nat) (hs : List (String × String)) (body jt : String) (env : Json) (tok : String)
    (hsess : c.st.sessionId = none)
    (hw : w c.pos = .reply status hs body) (h1 : 200 ≤ status) (h2 : status ≤ 299)
    (hd : findDataLine body = some jt) (hp : Json.parse jt = some env)
    (hh : headerGet hs "mcp-session-id" = some tok) (ht : tok ≠ "") :
    sendRequestM w c "initialize" p =
      (⟨⟨some tok, c.st.requestId + 1⟩, c.pos + 1⟩,
       ⟨baseHeaders, c.st.requestId + 1, "initialize", p⟩, .ok env) := by
  have hok : httpOk status = true := by simp [httpOk, h1, h2]
  simp [sendRequestM, hw, hok, hd, hp, hsess, hh, strTruthy, bne_iff_ne, ht]

/- ### Lemmas about ensureSession and callTool shapes -/


theorem ensureSession_skip (w : Nat → FetchOutcome) (c : Conf)
    (hsess : strTruthy c.st.sessionId = true) :
    ensureSessionM w c = (c, [], .ok none) := by
  simp [ensureSessionM, hsess]

theorem ensureSession_send (w : Nat → FetchOutcome) (c : Conf)
    (hsess : strTruthy c.st.sessionId = false) :
    ensureSessionM w c =
      ((sendRequestM w c "initialize" (some initParams)).1,
       [(sendRequestM w c "initialize" (some initParams)).2.1],
       match (sendRequestM w c "initialize" (some initParams)).2.2 with
       | .error msg => .fail (some (.str msg)) true
       | .ok resp => classifyInit resp) := by
  simp [ensureSessionM, hsess]

theorem callTool_skip (w : Nat → FetchOutcome) (c : Conf) (n : String) (a : Json)
    (hsess : strTruthy c.st.sessionId = true) :
    callToolM w c n a =
      ((sendRequestM w c "tools/call" (some (toolParams n a))).1,
       [(sendRequestM w c "tools/call" (some (toolParams n a))).2.1],
       match (sendRequestM w c "tools/call" (some (toolParams n a))).2.2 with
       | .error msg => .fail (some (.str msg)) true
       | .ok resp => classifyResp resp) := by
  simp [callToolM, ensureSession_skip w c hsess]

theorem callTool_of_ensure_fail (w : Nat → FetchOutcome) (c c1 : Conf)
    (rs : List SentRequest) (e : Option Json) (u : Bool) (n : String) (a : Json)
    (h : ensureSessionM w c = (c1, rs, .fail e u)) :
    callToolM w c n a = (c1, rs, .fail e u) := by
  simp [callToolM, h]

theorem callTool_of_ensure_ok (w : Nat → FetchOutcome) (c c1 : Conf)
    (rs : List SentRequest) (d : Option Json) (n : String) (a : Json)
    (h : ensureSessionM w c = (c1, rs, .ok d)) :
    callToolM w c n a =
      ((sendRequestM w c1 "tools/call" (some (toolParams n a))).1,
       rs ++ [(sendRequestM w c1 "tools/call" (some (toolParams n a))).2.1],
       match (sendRequestM w c1 "tools/call" (some (toolParams n a))).2.2 with
       | .error msg => .fail (some (.str msg)) true
       | .ok resp => classifyResp resp) := by
  simp [callToolM, h]

/- ### Session continuity lemmas -/


theorem headerGet_sessHeaders (tok : String) :
    headerGet (sessHeaders tok) "mcp-session-id" = some tok := by
  have h1 : (lowerList "Content-Type".data == lowerList "mcp-session-id".data) = false := by
    decide
  have h2 : (lowerList "Accept".data == lowerList "mcp-session-id".data) = false := by decide
  have h3 : (lowerList "mcp-session-id".data == lowerList "mcp-session-id".data) = true := by
    decide
  simp [headerGet, sessHeaders, baseHeaders, List.find?, h1, h2, h3]

theorem strTruthy_some (tok : String) (ht : tok ≠ "") : strTruthy (some tok) = true := by
  simp [strTruthy, ht]

/-- With a truthy session token held, one callTool sends exactly one
tools/call request carrying the session header, performs no handshake,
and leaves the token unchanged. -/
theorem callTool_session (w : Nat → FetchOutcome) (c : Conf) (n : String) (a : Json)
    (tok : String) (hsess : c.st.sessionId = some tok) (ht : tok ≠ "") :
    (callToolM w c n a).1.st.sessionId = some tok ∧
    (callToolM w c n a).1.st.requestId = c.st.requestId + 1 ∧
    (callToolM w c n a).1.pos = c.pos + 1 ∧
    (callToolM w c n a).2.1 =
      [⟨sessHeaders tok, c.st.requestId + 1, "tools/call", some (toolParams n a)⟩] := by
  have hst : strTruthy c.st.sessionId = true := by rw [hsess]; exact strTruthy_some tok ht
  rw [callTool_skip w c n a hst]
  refine ⟨?_, sendRequest_rid w c _ _, sendRequest_pos w c _ _, ?_⟩
  · rw [sendRequest_session_preserved w c _ _ hst, hsess]
  · rw [sendRequest_req_session w c _ _ tok hsess ht]

/-- All callTool invocations after a session token is held send only
session-carrying tools/call requests and never change the token. -/
theorem runCalls_session (w : Nat → FetchOutcome) (tok : String) (ht : tok ≠ "") :
    ∀ (ops : List (String × Json)) (c : Conf), c.st.sessionId = some tok →
      (runCalls w c ops).1.st.sessionId = some tok ∧
      ∀ r ∈ (runCalls w c ops).2.1,
        r.method = "tools/call" ∧ headerGet r.headers "mcp-session-id" = some tok
  | [], c, hc => by
    refine ⟨hc, ?_⟩
    intro r hr
    simp [runCalls] at hr
  | (n, a) :: rest, c, hc => by
    have h1 := callTool_session w c n a tok hc ht
    have ih := runCalls_session w tok ht rest (callToolM w c n a).1 h1.1
    refine ⟨?_, ?_⟩
    · show (runCalls w (callToolM w c n a).1 rest).1.st.sessionId = some tok
      exact ih.1
    · intro r hr
      have hr2 : r ∈ (callToolM w c n a).2.1 ++ (runCalls w (callToolM w c n a).1 rest).2.1 := hr
      rcases List.mem_append.mp hr2 with hmem | hmem
      · rw [h1.2.2.2] at hmem
        rcases List.mem_singleton.mp hmem with rfl
        exact ⟨rfl, headerGet_sessHeaders tok⟩
      · exact ih.2 r hmem

/- ### Request id lemmas -/


/-- One callTool sends requests with consecutive ids continuing the
current counter, and leaves the counter at the last id sent. -/
theorem callTool_ids (w : Nat → FetchOutcome) (c : Conf) (n : String) (a : Json) :
    (callToolM w c n a).2.1.map SentRequest.id =
      List.range' (c.st.requestId + 1) (callToolM w c n a).2.1.length ∧
    (callToolM w c n a).1.st.requestId = c.st.requestId + (callToolM w c n a).2.1.length := by
  by_cases hsess : strTruthy c.st.sessionId
  · rw [callTool_skip w c n a hsess]
    have hreq := sendRequest_req w c "tools/call" (some (toolParams n a))
    have hrid := sendRequest_rid w c "tools/call" (some (toolParams n a))
    constructor
    · show [(sendRequestM w c "tools/call" (some (toolParams n a))).2.1].map SentRequest.id = _
      rw [hreq]
      simp [List.range']
    · exact hrid
  · have hsf : strTruthy c.st.sessionId = false := by
      revert hsess
      cases strTruthy c.st.sessionId <;> simp
    cases hr : (sendRequestM w c "initialize" (some initParams)).2.2 with
    | error msg =>
      have hens : ensureSessionM w c =
          ((sendRequestM w c "initialize" (some initParams)).1,
           [(sendRequestM w c "initialize" (some initParams)).2.1],
           .fail (some (.str msg)) true) := by
        rw [ensureSession_send w c hsf, hr]
      rw [callTool_of_ensure_fail w c _ _ _ _ n a hens]
      have hreq := sendRequest_req w c "initialize" (some initParams)
      have hrid := sendRequest_rid w c "initialize" (some initParams)
      constructor
      · show [(sendRequestM w c "initialize" (some initParams)).2.1].map SentRequest.id = _
        rw [hreq]
        simp [List.range']
      · exact hrid
    | ok resp =>
      by_cases he : truthyO (resp.get "error")
      · have hens : ensureSessionM w c =
            ((sendRequestM w c "initialize" (some initParams)).1,
             [(sendRequestM w c "initialize" (some initParams)).2.1],
             .fail ((resp.get "error").bind (fun e => e.get "message")) true) := by
          rw [ensureSession_send w c hsf, hr]
          simp [classifyInit, he]
        rw [callTool_of_ensure_fail w c _ _ _ _ n a hens]
        have hreq := sendRequest_req w c "initialize" (some initParams)
        have hrid := sendRequest_rid w c "initialize" (some initParams)
        constructor
        · show [(sendRequestM w c "initialize" (some initParams)).2.1].map SentRequest.id = _
          rw [hreq]
          simp [List.range']
        · exact hrid
      · have hens : ensureSessionM w c =
            ((sendRequestM w c "initialize" (some initParams)).1,
             [(sendRequestM w c "initialize" (some initParams)).2.1],
             .ok none) := by
          rw [ensureSession_send w c hsf, hr]
          simp [classifyInit, he]
        rw [callTool_of_ensure_ok w c _ _ _ n a hens]
        have hreq1 := sendRequest_req w c "initialize" (some initParams)
        have hrid1 := sendRequest_rid w c "initialize" (some initParams)
        have hreq2 := sendRequest_req w (sendRequestM w c "initialize" (some initParams)).1
          "tools/call" (some (toolParams n a))
        have hrid2 := sendRequest_rid w (sendRequestM w c "initialize" (some initParams)).1
          "tools/call" (some (toolParams n a))
        constructor
        · show ([(sendRequestM w c "initialize" (some initParams)).2.1] ++
              [(sendRequestM w (sendRequestM w c "initialize" (some initParams)).1
                "tools/call" (some (toolParams n a))).2.1]).map SentRequest.id = _
          rw [hreq1, hreq2, hrid1]
          simp [List.range']
        · show (sendRequestM w (sendRequestM w c "initialize" (some initParams)).1
              "tools/call" (some (toolParams n a))).1.st.requestId = _
          rw [hrid2, hrid1]
          rfl

/-- Sequential callTool invocations send requests whose ids are the
consecutive integers continuing the counter. -/
theorem runCalls_ids (w : Nat → FetchOutcome) :
    ∀ (ops : List (String × Json)) (c : Conf),
      (runCalls w c ops).2.1.map SentRequest.id =
        List.range' (c.st.requestId + 1) (runCalls w c ops).2.1.length ∧
      (runCalls w c ops).1.st.requestId = c.st.requestId + (runCalls w c ops).2.1.length
  | [], c => by
    simp [runCalls]
  | (n, a) :: rest, c => by
    have h1 := callTool_ids w c n a
    have ih := runCalls_ids w rest (callToolM w c n a).1
    have hsplit : (runCalls w c ((n, a) :: rest)).2.1 =
        (callToolM w c n a).2.1 ++ (runCalls w (callToolM w c n a).1 rest).2.1 := rfl
    have hconf : (runCalls w c ((n, a) :: rest)).1 =
        (runCalls w (callToolM w c n a).1 rest).1 := rfl
    constructor
    · rw [hsplit, List.map_append, h1.1, ih.1, h1.2, List.length_append]
      have := List.range'_append (c.st.requestId + 1) (callToolM w c n a).2.1.length
        (runCalls w (callToolM w c n a).1 rest).2.1.length 1
      rw [show c.st.requestId + (callToolM w c n a).2.1.length + 1 =
          c.st.requestId + 1 + 1 * (callToolM w c n a).2.1.length from by ring] at *
      rw [this]
      ring_nf
    · rw [hconf, hsplit, List.length_append, ih.2, h1.2]
      ring

/- ### Classification lemmas -/


/-- A callTool exchange on a session-holding client whose tools/call
reply decodes to a well-formed envelope without envelope error and with
a truthy result object is classified by the isError flag alone. -/
theorem callTool_wellformed (w : Nat → FetchOutcome) (c : Conf) (n : String) (a : Json)
    (tok : String) (env res : Json)
    (hsess : c.st.sessionId = some tok) (ht : tok ≠ "")
    (hgood : goodEnvelope (w c.pos) = some env)
    (he : truthyO (env.get "error") = false)
    (hres : env.get "result" = some res)
    (hrt : res.truthyV = true) :
    (callToolM w c n a).2.2 =
      (if truthyO (res.get "isError") then .fail (some (toolErrorMessage res)) false
       else .ok (unwrapPayload res)) := by
  have hst : strTruthy c.st.sessionId = true := by rw [hsess]; exact strTruthy_some tok ht
  rw [callTool_skip w c n a hst]
  have hok : (sendRequestM w c "tools/call" (some (toolParams n a))).2.2 = .ok env :=
    (sendRequest_ok_iff w c _ _ env).mpr hgood
  show (match (sendRequestM w c "tools/call" (some (toolParams n a))).2.2 with
        | .error msg => GResult.fail (some (.str msg)) true
        | .ok resp => classifyResp resp) = _
  rw [hok]
  simp [classifyResp, he, hres, hrt]



theorem truthyO_some (v : Json) : truthyO (some v) = v.truthyV := rfl

theorem truthyO_none : truthyO none = false := rfl

/-- The tools/call classification yields a failure with connectivity
flag false exactly on well-formed tool-level rejections. -/
theorem classify_flag_false_iff (o : FetchOutcome) (r : Except String Json)
    (hiff : ∀ env, r = .ok env ↔ goodEnvelope o = some env) :
    (∃ e, (match r with
           | .error msg => GResult.fail (some (.str msg)) true
           | .ok resp => classifyResp resp) = .fail e false) ↔
      toolLevelError o = true := by
  cases r with
  | error msg =>
    cases hg : goodEnvelope o with
    | some env =>
      exfalso
      have h2 := (hiff env).mpr hg
      exact Except.noConfusion h2
    | none =>
      simp only [toolLevelError, hg]
      constructor
      · rintro ⟨e, he⟩
        exact absurd (GResult.fail.inj he).2 (by simp)
      · intro hfalse
        exact Bool.noConfusion hfalse
  | ok env =>
    have hg : goodEnvelope o = some env := (hiff env).mp rfl
    simp only [toolLevelError, hg]
    by_cases he : truthyO (env.get "error")
    · simp only [classifyResp, he, if_true]
      constructor
      · rintro ⟨e, hfe⟩
        exact absurd (GResult.fail.inj hfe).2 (by simp)
      · intro hb
        simp at hb
    · cases hres : env.get "result" with
      | none =>
        simp only [classifyResp, he, hres]
        constructor
        · rintro ⟨e, hfe⟩
          simp at hfe
        · intro hb
          simp [truthyO_none] at hb
      | some res =>
        by_cases hrt : res.truthyV
        · by_cases hie : truthyO (res.get "isError")
          · simp [classifyResp, he, hres, hrt, hie, truthyO_some]
          · simp [classifyResp, he, hres, hrt, hie, truthyO_some]
        · have hrt2 : res.truthyV = false := by
            revert hrt
            cases res.truthyV <;> simp
          simp [classifyResp, he, hres, hrt2, truthyO_some]



/-- callTool returns a failure with connectivity flag false exactly
when the run reaches a well-formed tool-level rejection. -/
theorem callTool_flag_false_iff (w : Nat → FetchOutcome) (c : Conf) (n : String) (a : Json) :
    (∃ e, (callToolM w c n a).2.2 = .fail e false) ↔ reachesToolError w c = true := by
  cases hsess : strTruthy c.st.sessionId with
  | true =>
    rw [callTool_skip w c n a hsess]
    simp only [reachesToolError, hsess, if_true]
    exact classify_flag_false_iff (w c.pos) _ (sendRequest_ok_iff w c _ _)
  | false =>
    simp only [reachesToolError, hsess, Bool.false_eq_true, if_false]
    cases hr : (sendRequestM w c "initialize" (some initParams)).2.2 with
    | error msg =>
      have hgnone : goodEnvelope (w c.pos) = none :=
        (sendRequest_error_iff w c _ _).mp ⟨msg, hr⟩
      have hens : ensureSessionM w c =
          ((sendRequestM w c "initialize" (some initParams)).1,
           [(sendRequestM w c "initialize" (some initParams)).2.1],
           .fail (some (.str msg)) true) := by
        rw [ensureSession_send w c hsess, hr]
      rw [callTool_of_ensure_fail w c _ _ _ _ n a hens]
      simp [handshakeOK, hgnone]
    | ok resp =>
      have hgood : goodEnvelope (w c.pos) = some resp := (sendRequest_ok_iff w c _ _ resp).mp hr
      by_cases he : truthyO (resp.get "error")
      · have hens : ensureSessionM w c =
            ((sendRequestM w c "initialize" (some initParams)).1,
             [(sendRequestM w c "initialize" (some initParams)).2.1],
             .fail ((resp.get "error").bind (fun e => e.get "message")) true) := by
          rw [ensureSession_send w c hsess, hr]
          simp [classifyInit, he]
        rw [callTool_of_ensure_fail w c _ _ _ _ n a hens]
        simp [handshakeOK, envelopeError, hgood, he]
      · have hens : ensureSessionM w c =
            ((sendRequestM w c "initialize" (some initParams)).1,
             [(sendRequestM w c "initialize" (some initParams)).2.1],
             .ok none) := by
          rw [ensureSession_send w c hsess, hr]
          simp [classifyInit, he]
        rw [callTool_of_ensure_ok w c _ _ _ n a hens]
        have hOK : handshakeOK (w c.pos) = true := by
          simp [handshakeOK, envelopeError, hgood, he]
        rw [hOK]
        simp only [Bool.true_and]
        have hpos : (sendRequestM w c "initialize" (some initParams)).1.pos = c.pos + 1 :=
          sendRequest_pos w c _ _
        have hiff : ∀ env, ((sendRequestM w (sendRequestM w c "initialize" (some initParams)).1
            "tools/call" (some (toolParams n a))).2.2 = .ok env ↔
            goodEnvelope (w (c.pos + 1)) = some env) := by
          intro env
          rw [← hpos]
          exact sendRequest_ok_iff w _ _ _ env
        exact classify_flag_false_iff (w (c.pos + 1)) _ hiff

/- ### Exception-conversion lemmas -/


theorem badOutcome_iff (o : FetchOutcome) :
    badOutcome o = true ↔ goodEnvelope o = none := by
  cases o with
  | throw msg => simp [badOutcome, goodEnvelope]
  | reply status hs body =>
    by_cases hok : httpOk status
    · cases hf : findDataLine body with
      | none => simp [badOutcome, goodEnvelope, hok, hf]
      | some jt =>
        cases hp : Json.parse jt with
        | none => simp [badOutcome, goodEnvelope, hok, hf, hp]
        | some env => simp [badOutcome, goodEnvelope, hok, hf, hp]
    · simp [badOutcome, goodEnvelope, hok]

/-- When the first fetch of a callTool run throws (network error,
timeout, bad status, missing data line or unparsable payload), the
thrown message is caught and returned as a connectivity failure. -/
theorem callTool_bad_first (w : Nat → FetchOutcome) (c : Conf) (n : String) (a : Json)
    (hbad : badOutcome (w c.pos) = true) :
    ∃ m, (callToolM w c n a).2.2 = .fail (some (.str m)) true := by
  have hnone : goodEnvelope (w c.pos) = none := (badOutcome_iff (w c.pos)).mp hbad
  cases hsess : strTruthy c.st.sessionId with
  | true =>
    obtain ⟨msg, hr⟩ := (sendRequest_error_iff w c "tools/call" (some (toolParams n a))).mpr hnone
    refine ⟨msg, ?_⟩
    rw [callTool_skip w c n a hsess]
    show (match (sendRequestM w c "tools/call" (some (toolParams n a))).2.2 with
          | .error msg => GResult.fail (some (.str msg)) true
          | .ok resp => classifyResp resp) = _
    rw [hr]
  | false =>
    obtain ⟨msg, hr⟩ := (sendRequest_error_iff w c "initialize" (some initParams)).mpr hnone
    refine ⟨msg, ?_⟩
    have hens : ensureSessionM w c =
        ((sendRequestM w c "initialize" (some initParams)).1,
         [(sendRequestM w c "initialize" (some initParams)).2.1],
         .fail (some (.str msg)) true) := by
      rw [ensureSession_send w c hsess, hr]
    rw [callTool_of_ensure_fail w c _ _ _ _ n a hens]

/-- When the handshake succeeds but the following tools/call fetch
throws, the thrown message is caught and returned as a connectivity
failure. -/
theorem callTool_bad_second (w : Nat → FetchOutcome) (c : Conf) (n : String) (a : Json)
    (hsess : strTruthy c.st.sessionId = false)
    (hhs : handshakeOK (w c.pos) = true)
    (hbad : badOutcome (w (c.pos + 1)) = true) :
    ∃ m, (callToolM w c n a).2.2 = .fail (some (.str m)) true := by
  have hnone : goodEnvelope (w (c.pos + 1)) = none := (badOutcome_iff _).mp hbad
  obtain ⟨resp, hgood⟩ : ∃ resp, goodEnvelope (w c.pos) = some resp := by
    rcases hg : goodEnvelope (w c.pos) with _ | resp
    · rw [handshakeOK, hg] at hhs
      simp at hhs
    · exact ⟨resp, rfl⟩
  have he : truthyO (resp.get "error") = false := by
    rw [handshakeOK, envelopeError, hgood] at hhs
    simp at hhs
    simpa using hhs
  have hr : (sendRequestM w c "initialize" (some initParams)).2.2 = .ok resp :=
    (sendRequest_ok_iff w c _ _ resp).mpr hgood
  have hens : ensureSessionM w c =
      ((sendRequestM w c "initialize" (some initParams)).1,
       [(sendRequestM w c "initialize" (some initParams)).2.1],
       .ok none) := by
    rw [ensureSession_send w c hsess, hr]
    simp [classifyInit, he]
  rw [callTool_of_ensure_ok w c _ _ _ n a hens]
  have hpos : (sendRequestM w c "initialize" (some initParams)).1.pos = c.pos + 1 :=
    sendRequest_pos w c _ _
  have hnone2 : goodEnvelope
      (w (sendRequestM w c "initialize" (some initParams)).1.pos) = none := by
    rw [hpos]; exact hnone
  obtain ⟨msg, hr2⟩ := (sendRequest_error_iff w
    (sendRequestM w c "initialize" (some initParams)).1 "tools/call"
    (some (toolParams n a))).mpr hnone2
  refine ⟨msg, ?_⟩
  show (match (sendRequestM w (sendRequestM w c "initialize" (some initParams)).1
        "tools/call" (some (toolParams n a))).2.2 with
        | .error msg => GResult.fail (some (.str msg)) true
        | .ok resp => classifyResp resp) = _
  rw [hr2]

/- ### Fingerprint cache lemmas -/


theorem sha256hexChars_length (s : String) : (sha256hexChars s).length = 64 := by
  simp [sha256hexChars, toHex8]

theorem hash8_ne_empty (s : String) : String.mk ((sha256hexChars s).take 8) ≠ "" := by
  intro h
  have hd : ((sha256hexChars s).take 8) = [] := by
    have h2 := congrArg String.data h
    simpa using h2
  rcases List.take_eq_nil_iff.mp hd with h8 | hnil
  · exact absurd h8 (by simp)
  · have hlen := sha256hexChars_length s
    rw [hnil] at hlen
    simp at hlen

theorem getProjectHash_ne_empty (env : GitEnv) (cache : List (String × String)) (d : String) :
    (getProjectHash env cache d).2.1 ≠ "" := by
  unfold getProjectHash
  cases hc : cacheGet cache d with
  | some cached =>
    by_cases hne : cached = ""
    · simp [hne, getProjectHash.getProjectHashCompute]
      exact hash8_ne_empty _
    · simp [bne_iff_ne, hne]
  | none =>
    simp [getProjectHash.getProjectHashCompute]
    exact hash8_ne_empty _

theorem getProjectHash_caches (env : GitEnv) (cache : List (String × String)) (d : String) :
    cacheGet (getProjectHash env cache d).1 d = some (getProjectHash env cache d).2.1 := by
  unfold getProjectHash
  cases hc : cacheGet cache d with
  | some cached =>
    by_cases hne : cached = ""
    · simp [hne, getProjectHash.getProjectHashCompute, cacheGet, List.find?]
    · simp [bne_iff_ne, hne, hc]
  | none =>
    simp [getProjectHash.getProjectHashCompute, cacheGet, List.find?]

theorem getProjectHash_idem (env : GitEnv) (cache : List (String × String)) (d : String) :
    getProjectHash env (getProjectHash env cache d).1 d =
      ((getProjectHash env cache d).1, (getProjectHash env cache d).2.1, 0) := by
  have hc := getProjectHash_caches env cache d
  have hne := getProjectHash_ne_empty env cache d
  conv_lhs => rw [getProjectHash]
  rw [hc]
  simp [bne_iff_ne, hne]

/- ### Claim theorems -/


/-- C3: for a directory whose origin remote is git@host:org/repo.git (or
the equivalent HTTPS remote of the same repository) and whose
repo-relative path is pkg/app, with base group id "team", the canonical
identity string is "host/org/repo/pkg/app" and the project namespace is
"team_" followed by the first 8 hex characters of its SHA-256 digest;
the SSH and HTTPS remote forms yield the same namespace. -/
theorem c3_namespace_example_scenario :
    canonicalIdentity envSsh "/work/repo/pkg/app" = "host/org/repo/pkg/app" ∧
    canonicalIdentity envHttps "/work/repo/pkg/app" = "host/org/repo/pkg/app" ∧
    (getProjectNamespace "team" envSsh [] "/work/repo/pkg/app").2.1 =
      "team_" ++ (sha256hex "host/org/repo/pkg/app").take 8 ∧
    (getProjectNamespace "team" envSsh [] "/work/repo/pkg/app").2.1 =
      (getProjectNamespace "team" envHttps [] "/work/repo/pkg/app").2.1 := by
  refine ⟨by decide, by decide, ?_, ?_⟩
  · set_option maxRecDepth 100000 in decide
  · set_option maxRecDepth 100000 in decide

/-- C6: for any directory, a second namespace-resolver call returns the
byte-identical namespace, performs zero git invocations, and leaves the
cache unchanged. -/
theorem c6_namespace_cache_stable (groupId : String) (env : GitEnv)
    (cache : List (String × String)) (dir : String) :
    (getProjectNamespace groupId env (getProjectNamespace groupId env cache dir).1 dir).2.1 =
      (getProjectNamespace groupId env cache dir).2.1 ∧
    (getProjectNamespace groupId env (getProjectNamespace groupId env cache dir).1 dir).2.2 = 0 ∧
    (getProjectNamespace groupId env (getProjectNamespace groupId env cache dir).1 dir).1 =
      (getProjectNamespace groupId env cache dir).1 := by
  have h := getProjectHash_idem env cache dir
  simp only [getProjectNamespace]
  rw [h]
  exact ⟨rfl, rfl, rfl⟩

/-- C9: within one client instance, the request envelope ids of a
sequence of callTool invocations are strictly increasing in send order
and pairwise distinct. -/
theorem c9_request_ids_strictly_increasing (w : Nat → FetchOutcome) (c : Conf)
    (ops : List (String × Json)) :
    List.Chain' (· < ·) ((runCalls w c ops).2.1.map SentRequest.id) ∧
    List.Pairwise (· ≠ ·) ((runCalls w c ops).2.1.map SentRequest.id) := by
  have h := (runCalls_ids w ops c).1
  rw [h]
  constructor
  · exact (List.pairwise_lt_range' _ _).chain'
  · exact (List.pairwise_lt_range' _ _).imp (fun hlt => Nat.ne_of_lt hlt)



/-- C4: when the first handshake of a fresh client succeeds and its
reply carries a session-token header, the first callTool sends exactly
the handshake and one tools/call request; the captured token is held
from then on, every request of every subsequent callTool carries it in
the mcp-session-id header, and no initialize request is ever sent
again. -/
theorem c4_handshake_once (w : Nat → FetchOutcome) (rid pos : Nat) (n : String) (a : Json)
    (ops : List (String × Json)) (tok : String) (status : Nat)
    (hs : List (String × String)) (body jt : String) (env : Json)
    (hw : w pos = .reply status hs body) (h1 : 200 ≤ status) (h2 : status ≤ 299)
    (hd : findDataLine body = some jt) (hp : Json.parse jt = some env)
    (he : truthyO (env.get "error") = false)
    (hh : headerGet hs "mcp-session-id" = some tok) (ht : tok ≠ "") :
    (callToolM w ⟨⟨none, rid⟩, pos⟩ n a).1.st.sessionId = some tok ∧
    (callToolM w ⟨⟨none, rid⟩, pos⟩ n a).2.1 =
      [⟨baseHeaders, rid + 1, "initialize", some initParams⟩,
       ⟨sessHeaders tok, rid + 2, "tools/call", some (toolParams n a)⟩] ∧
    (runCalls w (callToolM w ⟨⟨none, rid⟩, pos⟩ n a).1 ops).1.st.sessionId = some tok ∧
    (∀ r ∈ (runCalls w (callToolM w ⟨⟨none, rid⟩, pos⟩ n a).1 ops).2.1,
      r.method ≠ "initialize" ∧ headerGet r.headers "mcp-session-id" = some tok) := by
  have hcap := sendRequest_capture w ⟨⟨none, rid⟩, pos⟩ (some initParams) status hs body jt
    env tok rfl hw h1 h2 hd hp hh ht
  have hsf : strTruthy (Conf.mk ⟨none, rid⟩ pos).st.sessionId = false := rfl
  have hens : ensureSessionM w ⟨⟨none, rid⟩, pos⟩ =
      (⟨⟨some tok, rid + 1⟩, pos + 1⟩,
       [⟨baseHeaders, rid + 1, "initialize", some initParams⟩], .ok none) := by
    rw [ensureSession_send w _ hsf, hcap]
    simp [classifyInit, he]
  have hok := callTool_of_ensure_ok w ⟨⟨none, rid⟩, pos⟩ _ _ _ n a hens
  have hpres : (sendRequestM w ⟨⟨some tok, rid + 1⟩, pos + 1⟩ "tools/call"
      (some (toolParams n a))).1.st.sessionId = some tok := by
    rw [sendRequest_session_preserved w _ _ _ (strTruthy_some tok ht)]
  have hreq2 := sendRequest_req_session w ⟨⟨some tok, rid + 1⟩, pos + 1⟩ "tools/call"
    (some (toolParams n a)) tok rfl ht
  have hsid : (callToolM w ⟨⟨none, rid⟩, pos⟩ n a).1.st.sessionId = some tok := by
    rw [hok]
    exact hpres
  refine ⟨hsid, ?_, ?_, ?_⟩
  · rw [hok]
    show [⟨baseHeaders, rid + 1, "initialize", some initParams⟩] ++
        [(sendRequestM w ⟨⟨some tok, rid + 1⟩, pos + 1⟩ "tools/call"
          (some (toolParams n a))).2.1] = _
    rw [hreq2]
    rfl
  · exact (runCalls_session w tok ht ops _ hsid).1
  · intro r hr
    have h2 := (runCalls_session w tok ht ops _ hsid).2 r hr
    refine ⟨?_, h2.2⟩
    rw [h2.1]
    decide

/- ### Facade argument-map lemmas -/

theorem argsGet_append (l1 l2 : List (String × Json)) (k : String) :
    argsGet (l1 ++ l2) k = (argsGet l1 k).or (argsGet l2 k) := by
  unfold argsGet
  rw [List.find?_append]
  cases l1.find? (fun p => p.1 == k) <;> simp

theorem argsGet_optStr (k k' : String) (v : Option String) :
    argsGet (optStr k v) k' =
      if k == k' then
        (match v with
         | some s => if s != "" then some (Json.str s) else none
         | none => none)
      else none := by
  cases v with
  | none => simp [optStr, argsGet]
  | some s =>
    by_cases h : s != ""
    · simp only [optStr, h, if_true]
      simp [argsGet, List.find?]
      split <;> simp_all
    · have h2 : (s != "") = false := by revert h; cases s != "" <;> simp
      simp [optStr, h2, argsGet]

theorem argsGet_optNum (k k' : String) (v : Option Int) :
    argsGet (optNum k v) k' =
      if k == k' then
        (match v with
         | some m => if m != 0 then some (Json.num m) else none
         | none => none)
      else none := by
  cases v with
  | none => simp [optNum, argsGet]
  | some m =>
    by_cases h : m != 0
    · simp only [optNum, h, if_true]
      simp [argsGet, List.find?]
      split <;> simp_all
    · have h2 : (m != 0) = false := by revert h; cases m != 0 <;> simp
      simp [optNum, h2, argsGet]

theorem argsGet_optArr (k k' : String) (v : Option (List String)) :
    argsGet (optArr k v) k' =
      if k == k' then (v.map (fun l => Json.arr (l.map Json.str))) else none := by
  cases v with
  | none => simp [optArr, argsGet]
  | some l =>
    simp [optArr, argsGet, List.find?]
    split <;> simp_all



theorem argsGet_nil (k : String) : argsGet [] k = none := rfl

theorem argsGet_cons (k' : String) (v : Json) (t : List (String × Json)) (k : String) :
    argsGet ((k', v) :: t) k = if k' == k then some v else argsGet t k := by
  simp only [argsGet, List.find?]
  split <;> simp_all

theorem map_fst_optStr (k : String) (v : Option String) :
    (optStr k v).map Prod.fst =
      (match v with
       | some s => if s != "" then [k] else []
       | none => []) := by
  cases v <;> simp [optStr] <;> split <;> simp

theorem map_fst_optNum (k : String) (v : Option Int) :
    (optNum k v).map Prod.fst =
      (match v with
       | some m => if m != 0 then [k] else []
       | none => []) := by
  cases v <;> simp [optNum] <;> split <;> simp

theorem map_fst_optArr (k : String) (v : Option (List String)) :
    (optArr k v).map Prod.fst =
      (match v with
       | some _ => [k]
       | none => []) := by
  cases v <;> simp [optArr]



/-- C8 (amended): each facade operation builds exactly the snake_case
argument map of the parameters it always sends, plus each optional
parameter exactly when it was supplied with a truthy value (for the
string-array parameters: whenever supplied, arrays being always
truthy); falsy supplied optionals (empty string, zero) are omitted like
unsupplied ones, and no other key is ever present. -/
theorem c8_facade_args_translation (p : AddMemoryParams) (q q2 : String)
    (ps : SearchNodesParams) (pf : SearchFactsParams) (pe : GetEpisodesParams)
    (pc : ClearGraphParams) (u : String) :
    (argsGet (addMemoryArgs p) "name" = some (.str p.name) ∧
     argsGet (addMemoryArgs p) "episode_body" = some (.str p.episodeBody) ∧
     argsGet (addMemoryArgs p) "group_id" =
       (match p.groupId with
        | some s => if s != "" then some (Json.str s) else none
        | none => none) ∧
     argsGet (addMemoryArgs p) "source" =
       (match p.source with
        | some s => if s != "" then some (Json.str s) else none
        | none => none) ∧
     argsGet (addMemoryArgs p) "source_description" =
       (match p.sourceDescription with
        | some s => if s != "" then some (Json.str s) else none
        | none => none) ∧
     argsGet (addMemoryArgs p) "uuid" =
       (match p.uuid with
        | some s => if s != "" then some (Json.str s) else none
        | none => none) ∧
     (addMemoryArgs p).map Prod.fst =
       ["name", "episode_body"] ++
       (match p.groupId with
        | some s => if s != "" then ["group_id"] else []
        | none => []) ++
       (match p.source with
        | some s => if s != "" then ["source"] else []
        | none => []) ++
       (match p.sourceDescription with
        | some s => if s != "" then ["source_description"] else []
        | none => []) ++
       (match p.uuid with
        | some s => if s != "" then ["uuid"] else []
        | none => [])) ∧
    (argsGet (searchNodesArgs q ps) "query" = some (.str q) ∧
     argsGet (searchNodesArgs q ps) "group_ids" =
       (ps.groupIds.map (fun l => Json.arr (l.map Json.str))) ∧
     argsGet (searchNodesArgs q ps) "max_nodes" =
       (match ps.maxNodes with
        | some m => if m != 0 then some (Json.num m) else none
        | none => none) ∧
     argsGet (searchNodesArgs q ps) "entity_types" =
       (ps.entityTypes.map (fun l => Json.arr (l.map Json.str))) ∧
     (searchNodesArgs q ps).map Prod.fst =
       ["query"] ++
       (match ps.groupIds with
        | some _ => ["group_ids"]
        | none => []) ++
       (match ps.maxNodes with
        | some m => if m != 0 then ["max_nodes"] else []
        | none => []) ++
       (match ps.entityTypes with
        | some _ => ["entity_types"]
        | none => [])) ∧
    (argsGet (searchFactsArgs q2 pf) "query" = some (.str q2) ∧
     argsGet (searchFactsArgs q2 pf) "group_ids" =
       (pf.groupIds.map (fun l => Json.arr (l.map Json.str))) ∧
     argsGet (searchFactsArgs q2 pf) "max_facts" =
       (match pf.maxFacts with
        | some m => if m != 0 then some (Json.num m) else none
        | none => none) ∧
     argsGet (searchFactsArgs q2 pf) "center_node_uuid" =
       (match pf.centerNodeUuid with
        | some s => if s != "" then some (Json.str s) else none
        | none => none) ∧
     (searchFactsArgs q2 pf).map Prod.fst =
       ["query"] ++
       (match pf.groupIds with
        | some _ => ["group_ids"]
        | none => []) ++
       (match pf.maxFacts with
        | some m => if m != 0 then ["max_facts"] else []
        | none => []) ++
       (match pf.centerNodeUuid with
        | some s => if s != "" then ["center_node_uuid"] else []
        | none => [])) ∧
    (argsGet (getEpisodesArgs pe) "group_ids" =
       (pe.groupIds.map (fun l => Json.arr (l.map Json.str))) ∧
     argsGet (getEpisodesArgs pe) "max_episodes" =
       (match pe.maxEpisodes with
        | some m => if m != 0 then some (Json.num m) else none
        | none => none) ∧
     (getEpisodesArgs pe).map Prod.fst =
       (match pe.groupIds with
        | some _ => ["group_ids"]
        | none => []) ++
       (match pe.maxEpisodes with
        | some m => if m != 0 then ["max_episodes"] else []
        | none => [])) ∧
    (deleteEpisodeArgs u = [("uuid", .str u)]) ∧
    (argsGet (clearGraphArgs pc) "group_ids" =
       (pc.groupIds.map (fun l => Json.arr (l.map Json.str))) ∧
     (clearGraphArgs pc).map Prod.fst =
       (match pc.groupIds with
        | some _ => ["group_ids"]
        | none => [])) := by
  refine ⟨⟨?_, ?_, ?_, ?_, ?_, ?_, ?_⟩, ⟨?_, ?_, ?_, ?_, ?_⟩, ⟨?_, ?_, ?_, ?_, ?_⟩,
    ⟨?_, ?_, ?_⟩, ?_, ⟨?_, ?_⟩⟩ <;>
    simp [addMemoryArgs, searchNodesArgs, searchFactsArgs, getEpisodesArgs,
      deleteEpisodeArgs, clearGraphArgs, argsGet_append, argsGet_cons, argsGet_nil,
      argsGet_optStr, argsGet_optNum, argsGet_optArr,
      map_fst_optStr, map_fst_optNum, map_fst_optArr]



/-- C8 counterexample: addMemory with a supplied but empty groupId
omits group_id from the argument map, although the claim requires every
supplied parameter to be present. -/
theorem c8_facade_args_translation_cex :
    (AddMemoryParams.mk "n" "b" (some "") none none none).groupId = some "" ∧
    argsGet (addMemoryArgs (AddMemoryParams.mk "n" "b" (some "") none none none))
      "group_id" = none :=
  ⟨rfl, rfl⟩



/-- C1 (amended): on a well-formed tools/call exchange (HTTP success, no
envelope-level error, truthy result) whose result has the isError flag
set, callTool returns an application failure (connectivity flag false)
whose message follows the truthiness-based precedence: a truthy error
field of the structured content; else, for a truthy textual first
content block, the truthy error field of its JSON parse, else the raw
text; else the fixed string "Tool execution failed". -/
theorem c1_tool_error_message_precedence (w : Nat → FetchOutcome) (c : Conf) (n : String)
    (a : Json) (tok : String) (env res : Json)
    (hsess : c.st.sessionId = some tok) (ht : tok ≠ "")
    (hgood : goodEnvelope (w c.pos) = some env)
    (he : truthyO (env.get "error") = false)
    (hres : env.get "result" = some res)
    (hrt : res.truthyV = true)
    (hie : truthyO (res.get "isError") = true) :
    (callToolM w c n a).2.2 =
      .fail (some (
        if truthyO ((res.get "structuredContent").bind (fun sc => sc.get "error")) then
          ((res.get "structuredContent").bind (fun sc => sc.get "error")).getD .null
        else
          match ((res.get "content").bind Json.head0).bind (fun b => b.get "text") with
          | some (.str s) =>
            if s != "" then
              match Json.parse s with
              | some parsed =>
                if truthyO (parsed.get "error") then (parsed.get "error").getD .null
                else .str s
              | none => .str s
            else .str "Tool execution failed"
          | some v => if v.truthyV then v else .str "Tool execution failed"
          | none => .str "Tool execution failed")) false := by
  rw [callTool_wellformed w c n a tok env res hsess ht hgood he hres hrt]
  simp only [hie, if_true, toolErrorMessage]

/-- C1 counterexample: a tool rejection whose structured content has a
present but empty error field and an empty content array yields the
fixed message "Tool execution failed", not the present field's value. -/
theorem c1_tool_error_message_precedence_cex :
    (callToolM wEmptyErr confS "t" (.obj [])).2.2 =
      .fail (some (.str "Tool execution failed")) false ∧
    (((goodEnvelope (wEmptyErr 0)).bind (fun env => env.get "result")).bind
      (fun r => r.get "structuredContent")).bind (fun sc => sc.get "error") =
      some (.str "") ∧
    ("Tool execution failed" : String) ≠ "" :=
  ⟨rfl, rfl, by decide⟩

/-- C1 witness: a structured content carrying error "boom" produces the
failure message "boom" with connectivity flag false. -/
theorem c1_tool_error_message_precedence_witness :
    (callToolM wBoomErr confS "t" (.obj [])).2.2 = .fail (some (.str "boom")) false := by
  have h := c1_tool_error_message_precedence wBoomErr confS "t" (.obj []) "sess-1"
    (.obj [("jsonrpc", .str "2.0"), ("id", .num 2),
           ("result", .obj [("isError", .bool true),
                            ("structuredContent", .obj [("error", .str "boom")])])])
    (.obj [("isError", .bool true),
           ("structuredContent", .obj [("error", .str "boom")])])
    rfl (by decide) rfl rfl rfl rfl rfl
  exact h.trans rfl

/-- C5 (amended): on a well-formed successful tools/call exchange the
returned payload is the structured content, except that a structured
content that is an object containing a result key (possibly among other
keys) is replaced by the value under result. -/
theorem c5_structured_content_unwrap (w : Nat → FetchOutcome) (c : Conf) (n : String)
    (a : Json) (tok : String) (env res : Json)
    (hsess : c.st.sessionId = some tok) (ht : tok ≠ "")
    (hgood : goodEnvelope (w c.pos) = some env)
    (he : truthyO (env.get "error") = false)
    (hres : env.get "result" = some res)
    (hrt : res.truthyV = true)
    (hie : truthyO (res.get "isError") = false) :
    (callToolM w c n a).2.2 =
      .ok (match res.get "structuredContent" with
           | some sc => if sc.isObjWithResult then sc.get "result" else some sc
           | none => none) := by
  rw [callTool_wellformed w c n a tok env res hsess ht hgood he hres hrt]
  simp only [hie, Bool.false_eq_true, if_false, unwrapPayload]

/-- C5 counterexample: a structured content object with a result key
next to another key is still unwrapped, so the payload is not the whole
object although it is not a single-result-key object. -/
theorem c5_structured_content_unwrap_cex :
    (callToolM wDoubleKey confS "t" (.obj [])).2.2 = .ok (some (.num 1)) ∧
    ((goodEnvelope (wDoubleKey 0)).bind (fun env => env.get "result")).bind
      (fun r => r.get "structuredContent") =
      some (.obj [("result", .num 1), ("extra", .num 2)]) ∧
    Json.num 1 ≠ Json.obj [("result", .num 1), ("extra", .num 2)] :=
  ⟨rfl, rfl, by simp⟩

/-- C5 witness: a structured content that is an object with a single
result key is unwrapped to the value under result. -/
theorem c5_structured_content_unwrap_witness :
    (callToolM wSingleKey confS "t" (.obj [])).2.2 =
      .ok (some (.obj [("nodes", .arr [])])) := by
  have h := c5_structured_content_unwrap wSingleKey confS "t" (.obj []) "sess-1"
    (.obj [("jsonrpc", .str "2.0"), ("id", .num 2),
           ("result", .obj [("isError", .bool false),
                            ("structuredContent",
                             .obj [("result", .obj [("nodes", .arr [])])])])])
    (.obj [("isError", .bool false),
           ("structuredContent", .obj [("result", .obj [("nodes", .arr [])])])])
    rfl (by decide) rfl rfl rfl rfl rfl
  exact h.trans rfl



/-- C2 (amended): a callTool failure carries connectivity flag false
exactly when the run reaches a well-formed tool-level rejection; every
other failure (network exception, timeout, non-success HTTP status,
envelope-level error object, response-decode failure, or missing result
object) carries flag true. -/
theorem c2_unreachable_flag_classification (w : Nat → FetchOutcome) (c : Conf)
    (n : String) (a : Json) (e : Option Json) (u : Bool)
    (hf : (callToolM w c n a).2.2 = .fail e u) :
    (u = false ↔ reachesToolError w c = true) := by
  constructor
  · intro hu
    exact (callTool_flag_false_iff w c n a).mp ⟨e, by rw [hf, hu]⟩
  · intro hr
    obtain ⟨e2, hf2⟩ := (callTool_flag_false_iff w c n a).mpr hr
    rw [hf] at hf2
    exact (GResult.fail.inj hf2).2

/-- C2 counterexample: a 200 reply whose body has no SSE data line is
neither a thrown network exception nor a timeout, has a success status
and no envelope-level error object, yet callTool fails with
connectivity flag true. -/
theorem c2_unreachable_flag_classification_cex :
    (callToolM wNoData confS "t" (.obj [])).2.2 =
      .fail (some (.str "Invalid SSE format: no data line")) true ∧
    wNoData confS.pos = .reply 200 [] "hello" ∧
    httpOk 200 = true ∧
    envelopeError (wNoData confS.pos) = false :=
  ⟨rfl, rfl, rfl, rfl⟩

/-- C2 witness: a tool rejection with structured error "boom" carries
flag false, and the run indeed reaches the tool-level error branch. -/
theorem c2_unreachable_flag_classification_witness :
    (false = false ↔ reachesToolError wBoomErr confS = true) :=
  c2_unreachable_flag_classification wBoomErr confS "t" (.obj [])
    (some (.str "boom")) false rfl

/-- C7: callTool converts every exception of the exchange — a network
failure or timeout rejection, a non-success HTTP status, a missing SSE
data line, or an unparsable payload — into a tagged failure with
connectivity flag true instead of propagating it, on whichever of the
two request legs it arises. -/
theorem c7_callTool_never_throws (w : Nat → FetchOutcome) (c : Conf) (n : String)
    (a : Json) :
    (badOutcome (w c.pos) = true →
      ∃ m, (callToolM w c n a).2.2 = .fail (some (.str m)) true) ∧
    (strTruthy c.st.sessionId = false → handshakeOK (w c.pos) = true →
      badOutcome (w (c.pos + 1)) = true →
      ∃ m, (callToolM w c n a).2.2 = .fail (some (.str m)) true) :=
  ⟨callTool_bad_first w c n a, callTool_bad_second w c n a⟩

/-- C7 witness: a body without a data line on the tools/call leg, and a
network throw after a successful handshake, both come back as tagged
connectivity failures. -/
theorem c7_callTool_never_throws_witness :
    (∃ m, (callToolM wNoData confS "t" (.obj [])).2.2 = .fail (some (.str m)) true) ∧
    (∃ m, (callToolM wHsThenBad conf0 "t" (.obj [])).2.2 = .fail (some (.str m)) true) :=
  ⟨(c7_callTool_never_throws wNoData confS "t" (.obj [])).1 (by decide),
   (c7_callTool_never_throws wHsThenBad conf0 "t" (.obj [])).2 rfl (by decide) rfl⟩

/-- C10: when the handshake HTTP exchange succeeds with a session
header but the envelope carries an error object, the token is stored
anyway while the call returns a connectivity failure; every subsequent
callTool skips the handshake and sends the stored token. -/
theorem c10_handshake_error_keeps_token (w : Nat → FetchOutcome) (rid pos : Nat)
    (n : String) (a : Json) (ops : List (String × Json)) (tok : String) (status : Nat)
    (hs : List (String × String)) (body jt : String) (env : Json)
    (hw : w pos = .reply status hs body) (h1 : 200 ≤ status) (h2 : status ≤ 299)
    (hd : findDataLine body = some jt) (hp : Json.parse jt = some env)
    (he : truthyO (env.get "error") = true)
    (hh : headerGet hs "mcp-session-id" = some tok) (ht : tok ≠ "") :
    callToolM w ⟨⟨none, rid⟩, pos⟩ n a =
      (⟨⟨some tok, rid + 1⟩, pos + 1⟩,
       [⟨baseHeaders, rid + 1, "initialize", some initParams⟩],
       .fail ((env.get "error").bind (fun er => er.get "message")) true) ∧
    (runCalls w (callToolM w ⟨⟨none, rid⟩, pos⟩ n a).1 ops).1.st.sessionId = some tok ∧
    (∀ r ∈ (runCalls w (callToolM w ⟨⟨none, rid⟩, pos⟩ n a).1 ops).2.1,
      r.method ≠ "initialize" ∧ headerGet r.headers "mcp-session-id" = some tok) := by
  have hcap := sendRequest_capture w ⟨⟨none, rid⟩, pos⟩ (some initParams) status hs body jt
    env tok rfl hw h1 h2 hd hp hh ht
  have hsf : strTruthy (Conf.mk ⟨none, rid⟩ pos).st.sessionId = false := rfl
  have hens : ensureSessionM w ⟨⟨none, rid⟩, pos⟩ =
      (⟨⟨some tok, rid + 1⟩, pos + 1⟩,
       [⟨baseHeaders, rid + 1, "initialize", some initParams⟩],
       .fail ((env.get "error").bind (fun er => er.get "message")) true) := by
    rw [ensureSession_send w _ hsf, hcap]
    simp [classifyInit, he]
  have hcall := callTool_of_ensure_fail w ⟨⟨none, rid⟩, pos⟩ _ _ _ _ n a hens
  have hsid : (callToolM w ⟨⟨none, rid⟩, pos⟩ n a).1.st.sessionId = some tok := by
    rw [hcall]
  refine ⟨hcall, (runCalls_session w tok ht ops _ hsid).1, ?_⟩
  intro r hr
  have h2m := (runCalls_session w tok ht ops _ hsid).2 r hr
  exact ⟨by rw [h2m.1]; decide, h2m.2⟩

/-- C10 witness: with the concrete error envelope "Bad Request" the
token sess-1 is stored, the call fails with flag true, and a following
call still holds the token. -/
theorem c10_handshake_error_keeps_token_witness :
    callToolM wHsErr conf0 "t" (.obj []) =
      (⟨⟨some "sess-1", 1⟩, 1⟩,
       [⟨baseHeaders, 1, "initialize", some initParams⟩],
       .fail (some (.str "Bad Request")) true) ∧
    (runCalls wHsErr (callToolM wHsErr conf0 "t" (.obj [])).1
      [("t2", .obj [])]).1.st.sessionId = some "sess-1" := by
  have h := c10_handshake_error_keeps_token wHsErr 0 0 "t" (.obj []) [("t2", .obj [])]
    "sess-1" 200 hsOkHeaders hsErrBody
    "\x7b\"jsonrpc\":\"2.0\",\"id\":1,\"error\":\x7b\"code\":-32600,\"message\":\"Bad Request\"\x7d\x7d"
    (.obj [("jsonrpc", .str "2.0"), ("id", .num 1),
           ("error", .obj [("code", .num (-32600)), ("message", .str "Bad Request")])])
    rfl (by decide) (by decide) rfl rfl rfl rfl (by decide)
  exact ⟨h.1.trans rfl, h.2.1⟩



/-- C4 witness: the concrete handshake reply carrying sess-1 followed
by two more operations: the token is held, and both subsequent requests
are session-carrying tools/call requests. -/
theorem c4_handshake_once_witness :
    (callToolM wSession ⟨⟨none, 0⟩, 0⟩ "get_status" (.obj [])).1.st.sessionId =
      some "sess-1" ∧
    (∀ r ∈ (runCalls wSession (callToolM wSession ⟨⟨none, 0⟩, 0⟩ "get_status" (.obj [])).1
        [("get_status", .obj []), ("add_memory", .obj [])]).2.1,
      r.method ≠ "initialize" ∧ headerGet r.headers "mcp-session-id" = some "sess-1") := by
  have h := c4_handshake_once wSession 0 0 "get_status" (.obj [])
    [("get_status", .obj []), ("add_memory", .obj [])] "sess-1" 200 hsOkHeaders hsOkBody
    "\x7b\"jsonrpc\":\"2.0\",\"id\":1,\"result\":\x7b\"protocolVersion\":\"2024-11-05\"\x7d\x7d"
    (.obj [("jsonrpc", .str "2.0"), ("id", .num 1),
           ("result", .obj [("protocolVersion", .str "2024-11-05")])])
    rfl (by decide) (by decide) rfl rfl rfl rfl (by decide)
  exact ⟨h.1, h.2.2.2⟩

end Graphiti
